import Mathlib

/-
Verification development for the ec-video-generator media pipeline.

The Python sources (src/core/gpu_utils.py, src/core/generator.py,
src/ui/main_window.py) are shallowly embedded below.  External effects
(subprocess spawns, filesystem probes, PIL image decoding) are modelled as
explicit oracles passed to the embedded functions; machine floats used for
progress ratios and resize ratios are modelled as exact rational / natural
arithmetic with Python `int()` truncation rendered as natural-number
division (all quantities involved are non-negative).
-/

/-! ## gpu_utils.py -/

/-- Outcome of one probe subprocess in `get_best_encoder`: the process may
exit cleanly, exit non-zero (`subprocess.CalledProcessError`), or the tool
may be absent (`FileNotFoundError`). -/
inductive ProbeResult
  | cleanExit
  | nonzeroExit
  | toolNotFound
deriving DecidableEq

/-- A candidate is accepted exactly when its probe subprocess exits cleanly;
both exception branches of the `except` clause reject it. -/
def accepted : ProbeResult → Bool
  | ProbeResult.cleanExit => true
  | ProbeResult.nonzeroExit => false
  | ProbeResult.toolNotFound => false

/-- The fixed, ordered hardware-encoder candidate list from
`gpu_utils.get_best_encoder` (NVIDIA, AMD, Intel, macOS). -/
def encoders : List String :=
  ["h264_nvenc", "h264_amf", "h264_qsv", "videotoolbox"]

/-- Loop body of `get_best_encoder`: try each candidate in order, return the
first accepted one, fall through to the software fallback. -/
def probeLoop (probe : String → ProbeResult) : List String → String
  | [] => "libx264"
  | e :: rest => if accepted (probe e) then e else probeLoop probe rest

/-- Embedding of `gpu_utils.get_best_encoder`, parameterised by the probe
oracle (one `subprocess.run` per candidate). -/
def get_best_encoder (probe : String → ProbeResult) : String :=
  probeLoop probe encoders

/-! ## generator.py: resolution policy -/

/-- Embedding of `VideoGenerator._get_resolution`: dictionary lookup with
`(1920, 1080)` as the `.get` default for unknown presets. -/
def _get_resolution (preset : String) : Nat × Nat :=
  if preset = "4k" then (3840, 2160)
  else if preset = "2k" then (2560, 1440)
  else if preset = "1080p" then (1920, 1080)
  else if preset = "720p" then (1280, 720)
  else (1920, 1080)

/-- Embedding of the geometry resolution in `VideoGenerator.generate_video`
(lines 29-31): look up the preset, and swap width and height exactly when
the input is not wide. -/
def resolve (preset : String) (is_wide : Bool) : Nat × Nat :=
  let t := _get_resolution preset
  if is_wide then t else (t.2, t.1)

/-! ## Theorems: C4, C5, C8 -/

/-- C4: for every quality preset, resolving with `is_wide = false` is
exactly the width/height swap of resolving with `is_wide = true`; the
looked-up preset dimensions satisfy width ≥ height, and the `is_wide = true`
resolution is the raw preset lookup (the swap is applied exactly when the
input is not wide). -/
theorem resolve_portrait_swaps_landscape (preset : String) :
    resolve preset false = ((resolve preset true).2, (resolve preset true).1)
    ∧ (resolve preset true).2 ≤ (resolve preset true).1
    ∧ resolve preset true = _get_resolution preset := by
  refine ⟨?_, ?_, ?_⟩
  · simp [resolve]
  · simp only [resolve, _get_resolution]
    split_ifs <;> norm_num
  · simp [resolve]

/-- Helper characterisation of the probe loop: it returns the first listed
candidate whose probe is accepted, and `"libx264"` when none is. -/
theorem probeLoop_eq_find (probe : String → ProbeResult) (l : List String) :
    probeLoop probe l = (l.find? (fun e => accepted (probe e))).getD "libx264" := by
  induction l with
  | nil => rfl
  | cons e rest ih =>
      by_cases h : accepted (probe e) = true
      · simp [probeLoop, List.find?, h]
      · simp only [Bool.not_eq_true] at h
        simp [probeLoop, List.find?, h, ih]

/-- C5: the encoder probe tries the fixed ordered candidate list, accepts a
candidate exactly when its probe subprocess exits cleanly, returns the first
accepted candidate (`List.find?` over the fixed list), and returns
`"libx264"` when every candidate fails. -/
theorem get_best_encoder_first_accepted_or_fallback (probe : String → ProbeResult) :
    get_best_encoder probe
      = ((encoders.find? (fun e => accepted (probe e))).getD "libx264")
    ∧ (∀ r, accepted r = true ↔ r = ProbeResult.cleanExit)
    ∧ encoders = ["h264_nvenc", "h264_amf", "h264_qsv", "videotoolbox"] := by
  refine ⟨probeLoop_eq_find probe encoders, ?_, rfl⟩
  intro r
  cases r <;> simp [accepted]

/-- C8: every known preset maps to its fixed landscape pair, and every
unknown preset string silently falls back to `(1920, 1080)`. -/
theorem get_resolution_known_and_fallback :
    _get_resolution "720p" = (1280, 720)
    ∧ _get_resolution "1080p" = (1920, 1080)
    ∧ _get_resolution "2k" = (2560, 1440)
    ∧ _get_resolution "4k" = (3840, 2160)
    ∧ ∀ p : String, p ∉ (["4k", "2k", "1080p", "720p"] : List String) →
        _get_resolution p = (1920, 1080) := by
  refine ⟨rfl, rfl, rfl, rfl, ?_⟩
  intro p hp
  simp only [List.mem_cons, List.not_mem_nil, or_false, not_or] at hp
  simp [_get_resolution, hp.1, hp.2.1, hp.2.2.1, hp.2.2.2]

/-- Witness for C8 at the concrete unknown preset string `"8k"`. -/
theorem get_resolution_fallback_witness :
    _get_resolution "8k" = (1920, 1080) :=
  get_resolution_known_and_fallback.2.2.2.2 "8k" (by decide)

/-! ## generator.py: image operations -/

/-- Pixel dimensions of a PIL image as `(width, height)` pairs carried
explicitly. -/
structure Dims where
  width : Nat
  height : Nat
deriving DecidableEq

/-- Embedding of the rescale step in `VideoGenerator.concat_images`
(lines 69-72): when the heights differ, the second image is resized to
`(int(img2.width * img1.height / img2.height), img1.height)`; Python float
truncation of a non-negative ratio is natural-number division. -/
def rescale_second (img1 img2 : Dims) : Dims :=
  if img1.height ≠ img2.height then
    { width := img2.width * img1.height / img2.height, height := img1.height }
  else img2

/-- Result of `concat_images`: the canvas dimensions, the paste position of
each image, and the dimensions of the second image as pasted. -/
structure ConcatResult where
  canvas : Dims
  paste1 : Nat × Nat
  paste2 : Nat × Nat
  pasted2 : Dims
deriving DecidableEq

/-- Embedding of `VideoGenerator.concat_images` (lines 65-80) on image
dimensions: optionally rescale the second image to the first image's
height, allocate a canvas of the combined width and the first image's
height, paste the first image at `(0, 0)` and the second at
`(img1.width, 0)`. -/
def concat_images (img1 img2 : Dims) : ConcatResult :=
  let img2r := rescale_second img1 img2
  { canvas := { width := img1.width + img2r.width, height := img1.height }
  , paste1 := (0, 0)
  , paste2 := (img1.width, 0)
  , pasted2 := img2r }

/-- Models PIL `Image.thumbnail` rounding helper `round_aspect`: choose
between floor and ceiling of `number` by the supplied key (floor wins
ties, as Python `min` keeps the first argument), never below 1. -/
def round_aspect (number : ℚ) (key : Nat → ℚ) : Nat :=
  let f := number.floor.toNat
  let c := number.ceil.toNat
  max (if key c < key f then c else f) 1

/-- Models PIL `Image.thumbnail` on dimensions: a constrained resize that
only shrinks.  When the image already fits inside the requested size the
call returns immediately and the dimensions are unchanged; otherwise the
binding axis is clamped and the other axis is rounded preserving aspect
ratio. -/
def thumbnail_dims (d : Dims) (size : Nat × Nat) : Dims :=
  if d.width ≤ size.1 ∧ d.height ≤ size.2 then d
  else
    let aspect : ℚ := (d.width : ℚ) / (d.height : ℚ)
    if (size.1 : ℚ) / (size.2 : ℚ) ≥ aspect then
      { width := round_aspect ((size.2 : ℚ) * aspect) (fun n => |aspect - (n : ℚ) / (size.2 : ℚ)|)
      , height := size.2 }
    else
      { width := size.1
      , height := round_aspect ((size.1 : ℚ) / aspect)
          (fun n => if n = 0 then 0 else |aspect - (size.1 : ℚ) / (n : ℚ)|) }

/-- Models POSIX `os.path.basename`: the characters after the last `/`. -/
def basename (p : String) : String :=
  String.mk ((p.data.reverse.takeWhile (fun c => c ≠ '/')).reverse)

/-- Models `os.path.splitext`: split at the last dot, unless every
character before that dot is itself a dot (leading-dot filenames keep no
extension). -/
def splitext (p : String) : String × String :=
  let cs := p.data
  let afterDot := (cs.reverse.takeWhile (fun c => c ≠ '.')).length
  if afterDot = cs.length then (p, "")
  else
    let dotPos := cs.length - afterDot - 1
    if (cs.take dotPos).all (fun c => c = '.') then (p, "")
    else (String.mk (cs.take dotPos), String.mk (cs.drop dotPos))

/-- Save path built in `VideoGenerator.upscale_image_batch` (lines 57-59):
`os.path.join(output_folder, f"(name)_(preset)(ext)")`. -/
def batch_save_path (output_folder preset img_path : String) : String :=
  let fb := basename img_path
  let ne := splitext fb
  output_folder ++ "/" ++ ne.1 ++ "_" ++ preset ++ ne.2

/-- One iteration of the `upscale_image_batch` loop: `Image.open` (the
oracle yields `none` for a file PIL cannot decode, raising
`UnidentifiedImageError`), then `thumbnail` and `save`.  Returns the save
path and the saved dimensions, or the raised error. -/
def process_image (opn : String → Option Dims) (output_folder preset img_path : String) :
    Except String (String × Dims) :=
  match opn img_path with
  | none => Except.error ("cannot identify image file " ++ img_path)
  | some d =>
      Except.ok (batch_save_path output_folder preset img_path,
                 thumbnail_dims d (_get_resolution preset))

/-- Filesystem outcome of one batch call: files written before the batch
returned or raised, and the raised error if any.  An exception escaping the
`for` loop leaves the already-written files on disk and processes no
further input. -/
structure BatchState where
  written : List (String × Dims)
  error : Option String
deriving DecidableEq

/-- Embedding of `VideoGenerator.upscale_image_batch` (lines 53-63): the
loop body has no per-item exception handling, so the first failing
`Image.open` propagates out of the whole call. -/
def upscale_image_batch (opn : String → Option Dims) (image_paths : List String)
    (output_folder preset : String) : BatchState :=
  match image_paths with
  | [] => { written := [], error := none }
  | p :: rest =>
      match process_image opn output_folder preset p with
      | Except.error e => { written := [], error := some e }
      | Except.ok w =>
          let s := upscale_image_batch opn rest output_folder preset
          { written := w :: s.written, error := s.error }

/-! ## Theorems: C6, C10, C2 -/

/-- C6: for every pair of input images, the output canvas height equals the
first image's height, the output width equals the first image's width plus
the (rescaled when heights differ) second image's width, the first image is
pasted at the left edge `(0, 0)`, the second immediately to its right at
`(img1.width, 0)` with no gap, and the pasted second image shares the
canvas height. -/
theorem concat_images_geometry (img1 img2 : Dims) :
    (concat_images img1 img2).canvas.height = img1.height
    ∧ (concat_images img1 img2).canvas.width
        = img1.width + (rescale_second img1 img2).width
    ∧ (concat_images img1 img2).paste1 = (0, 0)
    ∧ (concat_images img1 img2).paste2 = (img1.width, 0)
    ∧ ((concat_images img1 img2).paste2).1
        = ((concat_images img1 img2).paste1).1 + img1.width
    ∧ (concat_images img1 img2).pasted2.height = img1.height := by
  refine ⟨rfl, rfl, rfl, rfl, by simp [concat_images], ?_⟩
  by_cases h : img1.height = img2.height
  · simp [concat_images, rescale_second, h]
  · simp [concat_images, rescale_second, h]

/-- C10: the batch upscale never enlarges.  For every preset and every
input image whose width and height are both at most the preset's target
width and height, running the batch on that image writes exactly one file
whose saved dimensions are the input's original dimensions, unchanged. -/
theorem upscale_image_batch_never_enlarges (preset : String) (d : Dims)
    (opn : String → Option Dims) (folder p : String)
    (hw : d.width ≤ (_get_resolution preset).1)
    (hh : d.height ≤ (_get_resolution preset).2)
    (hop : opn p = some d) :
    upscale_image_batch opn [p] folder preset
      = { written := [(batch_save_path folder preset p, d)], error := none } := by
  simp only [upscale_image_batch, process_image, hop]
  have ht : thumbnail_dims d (_get_resolution preset) = d := by
    simp [thumbnail_dims, hw, hh]
  rw [ht]

/-- Concrete `Image.open` oracle used by the C10 witness: every path decodes
to an 800×600 image. -/
def smallImageOracle : String → Option Dims :=
  fun _ => some { width := 800, height := 600 }

/-- Witness for C10: a 800×600 image under the 1080p preset (target
1920×1080) is written back with its original 800×600 dimensions. -/
theorem upscale_image_batch_never_enlarges_witness :
    (800 ≤ 1920 ∧ 600 ≤ 1080)
    ∧ upscale_image_batch smallImageOracle ["photo.png"] "out" "1080p"
        = { written := [("out/photo_1080p.png", { width := 800, height := 600 })]
          , error := none } :=
  ⟨by decide,
   upscale_image_batch_never_enlarges "1080p" { width := 800, height := 600 }
     smallImageOracle "out" "photo.png" (by decide) (by decide) rfl⟩

/-- Concrete `Image.open` oracle with a single undecodable file, used by the
C2 counterexample and witness: `bad.png` is corrupt, everything else
decodes to a 10×10 image. -/
def badBatchOracle : String → Option Dims :=
  fun p => if p = "bad.png" then none else some { width := 10, height := 10 }

/-- C2 counterexample: a batch of three images whose middle file is corrupt
produces output for only the one image before the failure — not for the
other two good images — and aborts with a single raised error, so the
operation does not continue past the first failing item. -/
theorem upscale_image_batch_abort_counterexample :
    ((upscale_image_batch badBatchOracle ["a.png", "bad.png", "c.png"] "out" "1080p").written.length
       = 1)
    ∧ (upscale_image_batch badBatchOracle ["a.png", "bad.png", "c.png"] "out" "1080p").error
       = some "cannot identify image file bad.png" := by
  constructor
  · rfl
  · rfl

/-- C2 as amended: the batch loop has no per-item error handling, so it
stops at the first failing item — every input before the first failure is
written successfully, the failure propagates as the single job error, and
the inputs after it are never processed. -/
theorem upscale_image_batch_stops_at_first_failure (opn : String → Option Dims)
    (pre post : List String) (bad folder preset : String)
    (hpre : ∀ p ∈ pre, (opn p).isSome = true) (hbad : opn bad = none) :
    ((upscale_image_batch opn (pre ++ bad :: post) folder preset).error).isSome = true
    ∧ (upscale_image_batch opn (pre ++ bad :: post) folder preset).written.length
        = pre.length := by
  induction pre with
  | nil =>
      simp [upscale_image_batch, process_image, hbad]
  | cons p rest ih =>
      have hp : (opn p).isSome = true := hpre p (by simp)
      obtain ⟨d, hd⟩ := Option.isSome_iff_exists.mp hp
      have hrest : ∀ q ∈ rest, (opn q).isSome = true := by
        intro q hq
        exact hpre q (by simp [hq])
      obtain ⟨h1, h2⟩ := ih hrest
      simp only [List.cons_append, upscale_image_batch, process_image, hd]
      exact ⟨h1, by simp [h2]⟩

/-- Witness for C2's amended theorem at the concrete three-image batch with
the corrupt middle file. -/
theorem upscale_image_batch_stops_at_first_failure_witness :
    ((upscale_image_batch badBatchOracle ["a.png", "bad.png", "c.png"] "out" "1080p").error).isSome
      = true
    ∧ (upscale_image_batch badBatchOracle ["a.png", "bad.png", "c.png"] "out" "1080p").written.length
      = 1 :=
  upscale_image_batch_stops_at_first_failure badBatchOracle ["a.png"] ["c.png"]
    "bad.png" "out" "1080p" (by decide) (by decide)

/-! ## generator.py: subprocess-facing functions -/

/-- Models Python `str.strip`: drop whitespace from both ends. -/
def pyStrip (s : String) : String :=
  String.mk (((s.data.dropWhile Char.isWhitespace).reverse.dropWhile Char.isWhitespace).reverse)

/-- Embedding of `VideoGenerator.has_audio_stream` (lines 131-143): the
ffprobe oracle yields the captured stdout, or `none` when the subprocess
call raises; the bare `except` degrades any raise to `false`, and
otherwise the stream exists exactly when the stripped stdout is
non-empty. -/
def has_audio_stream (probe : String → Option String) (video_path : String) : Bool :=
  match probe video_path with
  | some out => decide (0 < (pyStrip out).length)
  | none => false

/-- Embedding of the command built by `VideoGenerator.frames_to_video`
(lines 112-127): base frame-sequence input, the audio-donor input and
stream-copy mapping inserted exactly when `has_audio` holds, then the
encoder tail. -/
def frames_to_video_cmd (encoder frames_folder audio_source_video output_path : String)
    (has_audio : Bool) : List String :=
  ["ffmpeg", "-y", "-framerate", "30", "-i", frames_folder ++ "/frame_%04d.png"]
    ++ (if has_audio then
          ["-i", audio_source_video, "-map", "0:v", "-map", "1:a", "-c:a", "copy"]
        else [])
    ++ ["-c:v", encoder, "-pix_fmt", "yuv420p", output_path]

/-- Embedding of `VideoGenerator.frames_to_video` (lines 106-129) up to the
subprocess spawn: probe the donor for an audio stream and build the
command gated on the probe's result. -/
def frames_to_video (probe : String → Option String)
    (encoder frames_folder audio_source_video output_path : String) : List String :=
  frames_to_video_cmd encoder frames_folder audio_source_video output_path
    (has_audio_stream probe audio_source_video)

/-! ## Theorem: C7 -/

/-- C7: the assemble command contains an audio mapping exactly when the
audio-donor video has an audio stream (as reported by the probe): with
audio present the donor input and the `-map 0:v -map 1:a -c:a copy`
stream-copy block appear contiguously in the command, and with no audio
the command is exactly the video-only form with no `-map` argument at
all. -/
theorem frames_to_video_audio_gate (probe : String → Option String)
    (enc ff donor out : String)
    (h1 : enc ≠ "-map") (h2 : donor ≠ "-map") (h3 : out ≠ "-map")
    (h4 : ff ++ "/frame_%04d.png" ≠ "-map") :
    (("-map" ∈ frames_to_video probe enc ff donor out)
        ↔ has_audio_stream probe donor = true)
    ∧ (has_audio_stream probe donor = true →
        List.IsInfix ["-i", donor, "-map", "0:v", "-map", "1:a", "-c:a", "copy"]
          (frames_to_video probe enc ff donor out))
    ∧ (has_audio_stream probe donor = false →
        frames_to_video probe enc ff donor out
          = ["ffmpeg", "-y", "-framerate", "30", "-i", ff ++ "/frame_%04d.png",
             "-c:v", enc, "-pix_fmt", "yuv420p", out]) := by
  refine ⟨?_, ?_, ?_⟩
  · cases h : has_audio_stream probe donor with
    | true =>
        simp [frames_to_video, frames_to_video_cmd, h]
    | false =>
        simp only [h, Bool.false_eq_true, iff_false]
        intro hmem
        have hm : "-map" ∈ (["ffmpeg", "-y", "-framerate", "30", "-i",
            ff ++ "/frame_%04d.png", "-c:v", enc, "-pix_fmt", "yuv420p", out] : List String) := by
          simpa [frames_to_video, frames_to_video_cmd, h] using hmem
        simp only [List.mem_cons, List.not_mem_nil, or_false] at hm
        rcases hm with h' | h' | h' | h' | h' | h' | h' | h' | h' | h' | h' <;>
          first
            | exact h4 h'.symm
            | exact h1 h'.symm
            | exact h3 h'.symm
            | exact absurd h' (by decide)
  · intro h
    simp only [frames_to_video, frames_to_video_cmd, h, if_true]
    exact ⟨["ffmpeg", "-y", "-framerate", "30", "-i", ff ++ "/frame_%04d.png"],
           ["-c:v", enc, "-pix_fmt", "yuv420p", out], by simp⟩
  · intro h
    simp [frames_to_video, frames_to_video_cmd, h]

/-- Concrete ffprobe oracle reporting an audio stream (stdout `"aac"`) for
every queried path. -/
def audioPresentProbe : String → Option String :=
  fun _ => some "aac"

/-- Witness for C7 at concrete arguments: with a donor whose probe reports
an audio stream, the assemble command carries the stream-copy mapping. -/
theorem frames_to_video_audio_gate_witness :
    ("libx264" ≠ "-map" ∧ "donor.mp4" ≠ "-map" ∧ "out.mp4" ≠ "-map"
      ∧ "frames" ++ "/frame_%04d.png" ≠ "-map")
    ∧ (("-map" ∈ frames_to_video audioPresentProbe "libx264" "frames" "donor.mp4" "out.mp4")
        ↔ has_audio_stream audioPresentProbe "donor.mp4" = true) :=
  ⟨by decide,
   (frames_to_video_audio_gate audioPresentProbe "libx264" "frames" "donor.mp4" "out.mp4"
     (by decide) (by decide) (by decide) (by decide)).1⟩

/-! ## generator.py: upscale_video (C3) -/

/-- Classified job failure: the eager existence check in `generate_video`
raises `FileNotFoundError` (InputNotFound), while `_run_ffmpeg` raises a
generic exception carrying the tool's stderr (TranscodeError). -/
inductive JobError
  | inputNotFound (msg : String)
  | ffmpegError (stderr : String)
deriving DecidableEq

/-- Tests whether an outcome is the eager `InputNotFound` failure. -/
def isInputNotFound : Except JobError Unit → Bool
  | Except.error (JobError.inputNotFound _) => true
  | _ => false

/-- Embedding of `VideoGenerator._run_ffmpeg` (lines 146-150): spawn the
command (the runner oracle yields the exit code and captured stderr) and
raise `FFmpeg Error: <stderr>` on a non-zero exit. -/
def _run_ffmpeg (runner : List String → Nat × String) (cmd : List String) :
    Except JobError Unit :=
  let r := runner cmd
  if r.1 ≠ 0 then Except.error (JobError.ffmpegError ("FFmpeg Error: " ++ r.2))
  else Except.ok ()

/-- The `-vf` filter string built in `VideoGenerator.upscale_video`
(line 47): lanczos scale preserving aspect ratio, then centred padding. -/
def upscale_vf (w h : Nat) : String :=
  "scale=" ++ toString w ++ ":" ++ toString h
    ++ ":flags=lanczos:force_original_aspect_ratio=decrease,pad="
    ++ toString w ++ ":" ++ toString h ++ ":(ow-iw)/2:(oh-ih)/2"

/-- The argument vector built by `VideoGenerator.upscale_video`
(lines 45-49). -/
def upscale_video_cmd (encoder input_video output_path preset : String) : List String :=
  let t := _get_resolution preset
  ["ffmpeg", "-y", "-i", input_video, "-c:v", encoder,
   "-vf", upscale_vf t.1 t.2, "-c:a", "copy", output_path]

/-- Trace of one embedded pipeline call: the argument vectors of every
subprocess it spawned, in order, and its outcome. -/
structure RunTrace where
  spawned : List (List String)
  outcome : Except JobError Unit

/-- Embedding of `VideoGenerator.upscale_video` (lines 43-50).  The
function body performs no filesystem access before building the command
and handing it to `_run_ffmpeg`, so the existence oracle `fs` is never
consulted: the ffmpeg subprocess is spawned whether or not the input video
exists. -/
def upscale_video (fs : String → Bool) (runner : List String → Nat × String)
    (encoder input_video output_path preset : String) : RunTrace :=
  let cmd := upscale_video_cmd encoder input_video output_path preset
  { spawned := [cmd], outcome := _run_ffmpeg runner cmd }

/-- Existence oracle of an empty filesystem: no path exists. -/
def absentFs : String → Bool :=
  fun _ => false

/-- Runner oracle for a spawn whose tool exits non-zero complaining about
the missing input. -/
def missingInputRunner : List String → Nat × String :=
  fun _ => (1, "in.mp4: No such file or directory")

/-- C3 counterexample: calling `upscale_video` on a filesystem where the
input video does not exist still spawns the ffmpeg subprocess, and the
failure it reports is the subprocess's `FFmpeg Error`, never an eager
`InputNotFound` — contradicting the claim that a missing input fails with
`InputNotFound` before any subprocess is spawned. -/
theorem upscale_video_missing_input_counterexample :
    ((upscale_video absentFs missingInputRunner "libx264" "in.mp4" "out.mp4" "1080p").spawned
        ≠ [])
    ∧ isInputNotFound
        (upscale_video absentFs missingInputRunner "libx264" "in.mp4" "out.mp4" "1080p").outcome
        = false
    ∧ (upscale_video absentFs missingInputRunner "libx264" "in.mp4" "out.mp4" "1080p").outcome
        = Except.error (JobError.ffmpegError "FFmpeg Error: in.mp4: No such file or directory") := by
  refine ⟨?_, rfl, rfl⟩
  intro h
  simp [upscale_video] at h

/-- C3 as amended: `upscale_video` performs no eager existence check at
all — for every filesystem state it spawns exactly the one ffmpeg command
it builds, and its outcome is never `InputNotFound` (a missing input
surfaces only as the spawned subprocess's non-zero exit, i.e. a
`TranscodeError`). -/
theorem upscale_video_always_spawns_no_eager_check (fs : String → Bool)
    (runner : List String → Nat × String) (enc inp out preset : String) :
    (upscale_video fs runner enc inp out preset).spawned
      = [upscale_video_cmd enc inp out preset]
    ∧ isInputNotFound (upscale_video fs runner enc inp out preset).outcome = false := by
  constructor
  · rfl
  · show isInputNotFound (_run_ffmpeg runner (upscale_video_cmd enc inp out preset)) = false
    unfold _run_ffmpeg
    by_cases h : (runner (upscale_video_cmd enc inp out preset)).1 ≠ 0 <;>
      simp [h, isInputNotFound]

/-! ## main_window.py: WorkerThread.run_ai_edit, video mode (C1) -/

/-- Minimal filesystem state tracked across one AI video-edit job: whether
the temporary frame directory (`temp_frames_ai`) exists. -/
structure FsState where
  temp_dir : Bool
deriving DecidableEq

/-- Environment of one AI video-edit job: whether the extraction ffmpeg
call succeeds, the number of extracted frames, which per-frame edits
succeed, and whether the reassembly ffmpeg call succeeds. -/
structure AiEditEnv where
  extract_ok : Bool
  n_frames : Nat
  edit_ok : Nat → Bool
  assemble_ok : Bool

/-- Embedding of `VideoGenerator.extract_frames` (lines 83-104) on the
tracked state: delete the directory if present, recreate it (so it exists
from here on), then run the extraction ffmpeg command, which may raise;
on success the frame index list is returned. -/
def extract_frames_fs (env : AiEditEnv) (s : FsState) :
    FsState × Except String (List Nat) :=
  let s1 : FsState := { s with temp_dir := true }
  if env.extract_ok then (s1, Except.ok (List.range env.n_frames))
  else (s1, Except.error "FFmpeg Error: extraction failed")

/-- Embedding of the per-frame edit loop of `WorkerThread.run_ai_edit`
(lines 113-122): frames are edited strictly in order and the first raising
`edit_image` call aborts the loop. -/
def edit_frames (edit_ok : Nat → Bool) : List Nat → Except String Unit
  | [] => Except.ok ()
  | i :: rest =>
      if edit_ok i then edit_frames edit_ok rest
      else Except.error ("AI edit failed at frame " ++ toString i)

/-- Embedding of `WorkerThread.run_ai_edit` video mode (lines 101-130):
extract, edit each frame, reassemble, and only then — after all three
stages succeeded — remove the temporary directory.  A raise in any stage
propagates immediately (caught by `WorkerThread.run`, which performs no
cleanup), leaving the filesystem state as the failing stage left it. -/
def run_ai_edit_video (env : AiEditEnv) (s0 : FsState) :
    FsState × Except String Unit :=
  let er := extract_frames_fs env s0
  match er.2 with
  | Except.error e => (er.1, Except.error e)
  | Except.ok frames =>
      match edit_frames env.edit_ok frames with
      | Except.error e => (er.1, Except.error e)
      | Except.ok () =>
          if env.assemble_ok then
            ({ er.1 with temp_dir := false }, Except.ok ())
          else (er.1, Except.error "FFmpeg Error: reassembly failed")

/-- Tests whether a stage outcome is a success. -/
def exceptOk : Except String Unit → Bool
  | Except.ok () => true
  | Except.error _ => false

/-- Concrete failing job for C1: extraction succeeds with 3 frames, the
AI edit of frame 1 raises, reassembly would succeed. -/
def c1FailingEnv : AiEditEnv :=
  { extract_ok := true
  , n_frames := 3
  , edit_ok := fun i => decide (i = 0)
  , assemble_ok := true }

/-! ## Theorem: C1 -/

/-- C1: evaluation of the code at a failing input.  On an AI video-edit job
whose frame-1 edit raises partway through the Extract → per-frame Edit →
Assemble sequence, the job ends in failure with the temporary frame
directory still present on disk — the cleanup step runs only after a fully
successful stage sequence, so temporary state survives the failed job,
contradicting the claim; on the fully successful run of the same shape the
directory is removed. -/
theorem ai_edit_temp_dir_survives_mid_job_failure :
    ((run_ai_edit_video c1FailingEnv { temp_dir := false }).1.temp_dir = true
      ∧ exceptOk (run_ai_edit_video c1FailingEnv { temp_dir := false }).2 = false)
    ∧ ((run_ai_edit_video
          { c1FailingEnv with edit_ok := fun _ => true }
          { temp_dir := false }).1.temp_dir = false
      ∧ exceptOk (run_ai_edit_video
          { c1FailingEnv with edit_ok := fun _ => true }
          { temp_dir := false }).2 = true) := by
  refine ⟨⟨?_, ?_⟩, ⟨?_, ?_⟩⟩ <;> rfl

/-! ## main_window.py: progress sequences (C9) -/

/-- The progress values emitted by one stepped loop of `total` steps:
`int(((i + 1) / total) * 100)` for `i = 0 .. total - 1`, with Python float
truncation of the non-negative ratio rendered as natural-number division.
This is the per-frame loop of `run_ai_edit` video mode (line 121), the
per-step callback of image mode (line 135, called with `step = 0 ..
total_steps - 1`), and the batch-upscale loop of `WorkerThread.run`
(line 66). -/
def frame_progress (total : Nat) : List Nat :=
  (List.range total).map (fun i => ((i + 1) * 100) / total)

/-- The progress values emitted by the fixed-step pipeline modes of
`WorkerThread.run` (`create_video` lines 50-52 and `upscale_video`
lines 56-58): 10 at the start, 100 on completion. -/
def fixed_mode_progress : List Nat := [10, 100]

/-! ## Theorem: C9 -/

/-- C9: within one job every stepped progress sequence is monotonically
non-decreasing, emits exactly one event per completed step, and on success
ends with the 100%-equivalent signal; the fixed-step modes likewise emit
the non-decreasing sequence 10, 100 ending at 100. -/
theorem progress_monotone_one_event_per_step_ends_100 (total : Nat) (h : 0 < total) :
    List.Chain' (· ≤ ·) (frame_progress total)
    ∧ (frame_progress total).length = total
    ∧ (frame_progress total).getLastD 0 = 100
    ∧ List.Chain' (· ≤ ·) fixed_mode_progress
    ∧ fixed_mode_progress.getLastD 0 = 100 := by
  refine ⟨?_, ?_, ?_,
    by norm_num [fixed_mode_progress, List.chain'_cons, List.chain'_singleton],
    by rfl⟩
  · have hp : List.Pairwise (· < ·) (List.range total) := List.pairwise_lt_range total
    have hm : List.Pairwise (· ≤ ·) (frame_progress total) := by
      refine hp.map (fun i => ((i + 1) * 100) / total) ?_
      intro a b hab
      exact Nat.div_le_div_right (Nat.mul_le_mul_right 100 (by omega))
    exact List.chain'_iff_pairwise.mpr hm
  · simp [frame_progress]
  · obtain ⟨n, rfl⟩ := Nat.exists_eq_succ_of_ne_zero (Nat.pos_iff_ne_zero.mp h)
    have : frame_progress (n + 1)
        = ((List.range n).map (fun i => ((i + 1) * 100) / (n + 1)))
            ++ [((n + 1) * 100) / (n + 1)] := by
      simp [frame_progress, List.range_succ]
    rw [this, List.getLastD_concat]
    rw [Nat.mul_div_cancel_left 100 (Nat.succ_pos n)]

/-- Witness for C9 at the concrete step count 3: the emitted sequence is
33, 66, 100 — non-decreasing, one event per step, ending at 100. -/
theorem progress_monotone_one_event_per_step_ends_100_witness :
    List.Chain' (· ≤ ·) (frame_progress 3)
    ∧ (frame_progress 3).length = 3
    ∧ (frame_progress 3).getLastD 0 = 100
    ∧ List.Chain' (· ≤ ·) fixed_mode_progress
    ∧ fixed_mode_progress.getLastD 0 = 100 :=
  progress_monotone_one_event_per_step_ends_100 3 (by decide)
